import Mathlib

/-
  Verification of the Veratheon equity-research pipeline (orchestration core).

  Shallow embedding of the orchestration logic of the repository:
  - `legacy/flows/research_flow.py` (main orchestrator),
  - `legacy/flows/subflows/*.py` (per-stage cache-or-compute subflows),
  - `legacy/tasks/cache_retrieval/*.py` (cache retrieval tasks),
  - `legacy/tasks/*/*_reporting_task.py` (cache writes),
  - the per-domain fetch utilities under `legacy/research/`,
  - `legacy/research/cross_reference/*` and
    `legacy/flows/subflows/cross_reference_flow.py` (the reconciler),
  - `src/research/management_guidance/management_guidance_agent.py`,
  - `legacy/research/common/peer_group_agent.py` and its model,
  - `server/api.py` (`run_research_background`).

  External collaborators (LLM inference, the Alpha Vantage market-data API,
  the Supabase-backed cache/report store, the system clock) are passed in as
  function parameters; fallible external calls return `Except String` so a
  Python exception is an `.error` value propagating through `do`-sequencing,
  and a Python `try/except` is an explicit `match` on that value.
-/

namespace Veratheon

/-- JSON-like values, mirroring the loosely-typed Python dicts (`Dict[str, Any]`)
that flow through the fetch stages and the cache. -/
inductive JValue where
  | null
  | bool (b : Bool)
  | num (n : Int)
  | str (s : String)
  | arr (xs : List JValue)
  | obj (fields : List (String × JValue))

/-- Python truthiness of a JSON-like value (`if x:`). -/
def JValue.truthy : JValue → Bool
  | .null => false
  | .bool b => b
  | .num n => n ≠ 0
  | .str s => s ≠ ""
  | .arr xs => ¬ xs.isEmpty
  | .obj fields => ¬ fields.isEmpty

/-- Python `str()` of a JSON-like value as used inside f-strings; containers
are abbreviated since no theorem depends on their rendering. -/
def py_fstr : JValue → String
  | .null => "None"
  | .bool true => "True"
  | .bool false => "False"
  | .num n => toString n
  | .str s => s
  | .arr _ => "[...]"
  | .obj _ => "\x7b...\x7d"

/-- Python dict subscription `d[k]`: the first binding for the key, or a
KeyError (Python dict keys are unique, so first-binding lookup agrees). -/
def dict_item (d : List (String × JValue)) (k : String) : Except String JValue :=
  match d.lookup k with
  | some v => .ok v
  | none => .error ("KeyError: " ++ k)

/-! ## The pipeline stages and the orchestrator's invocation order

Transcribed from `main_research_flow` in `legacy/flows/research_flow.py`
(lines 82-211): a fixed, hand-ordered linear sequence of subflow calls. -/

/-- The pipeline stages invoked by `main_research_flow`, one constructor per
subflow (or agent) call site in `legacy/flows/research_flow.py`. -/
inductive Stage where
  | companyOverview
  | globalQuote
  | historicalEarnings
  | financialStatements
  | earningsProjections
  | managementGuidance
  | peerGroup
  | forwardPeSanityCheck
  | forwardPe
  | newsSentiment
  | crossReference
  | tradeIdeas
  | comprehensiveReport
  | keyInsights
deriving DecidableEq, Repr

/-- The order in which `main_research_flow` awaits its stages
(`legacy/flows/research_flow.py` lines 84, 89, 93, 97, 101, 110, 119, 125,
129, 140, 150, 163, 195, 205). -/
def mainFlowOrder : List Stage :=
  [ .companyOverview
  , .globalQuote
  , .historicalEarnings
  , .financialStatements
  , .earningsProjections
  , .managementGuidance
  , .peerGroup
  , .forwardPeSanityCheck
  , .forwardPe
  , .newsSentiment
  , .crossReference
  , .tradeIdeas
  , .comprehensiveReport
  , .keyInsights ]

/-- The upstream analyses each stage call receives as arguments in
`main_research_flow` (transcribed from the argument lists of the subflow
calls in `legacy/flows/research_flow.py`). The `all_analyses` dictionary
passed to the comprehensive report collects every prior result (lines
176-191), and key insights consume only the comprehensive report (line 205). -/
def stageInputs : Stage → List Stage
  | .companyOverview => []
  | .globalQuote => []
  | .historicalEarnings => []
  | .financialStatements => []
  | .earningsProjections => [.historicalEarnings, .financialStatements]
  | .managementGuidance => [.historicalEarnings, .financialStatements]
  | .peerGroup => [.financialStatements]
  | .forwardPeSanityCheck => []
  | .forwardPe => [.peerGroup, .earningsProjections, .managementGuidance, .forwardPeSanityCheck]
  | .newsSentiment => [.peerGroup, .earningsProjections, .managementGuidance]
  | .crossReference => [.forwardPe, .newsSentiment, .historicalEarnings, .financialStatements,
      .earningsProjections, .managementGuidance]
  | .tradeIdeas => [.forwardPe, .newsSentiment, .historicalEarnings, .financialStatements,
      .earningsProjections, .managementGuidance]
  | .comprehensiveReport => [.companyOverview, .globalQuote, .historicalEarnings,
      .financialStatements, .earningsProjections, .managementGuidance, .peerGroup,
      .forwardPeSanityCheck, .forwardPe, .newsSentiment, .crossReference, .tradeIdeas]
  | .keyInsights => [.comprehensiveReport]

/-- Position of a stage in the orchestrator's invocation sequence. -/
def stagePos (s : Stage) : Nat := mainFlowOrder.indexOf s

/-- The cached subflow invocations of `main_research_flow` together with the
`force_recompute` argument each receives: every call site passes
`force_recompute=force_recompute`, the flow's own top-level parameter
(`legacy/flows/research_flow.py`; the peer-group agent takes no such flag). -/
def mainResearchFlowCalls (force_recompute : Bool) : List (Stage × Bool) :=
  [ (.companyOverview, force_recompute)
  , (.globalQuote, force_recompute)
  , (.historicalEarnings, force_recompute)
  , (.financialStatements, force_recompute)
  , (.earningsProjections, force_recompute)
  , (.managementGuidance, force_recompute)
  , (.forwardPeSanityCheck, force_recompute)
  , (.forwardPe, force_recompute)
  , (.newsSentiment, force_recompute)
  , (.crossReference, force_recompute)
  , (.tradeIdeas, force_recompute)
  , (.comprehensiveReport, force_recompute)
  , (.keyInsights, force_recompute) ]

/-- Which `force_recompute` argument each stage invocation of
`main_research_flow` receives: the thirteen cached subflow calls forward the
top-level flag; the peer-group agent call
(`peer_group_agent(symbol, financial_statements_analysis)`, line 119) takes
no such parameter — the resolver is recomputed on every run and its report is
written unconditionally by `peer_group_reporting_task`. -/
def stageForceArg (force_recompute : Bool) : Stage → Option Bool
  | .peerGroup => none
  | _ => some force_recompute

/-! ## The cache gateway and the per-stage cache-or-compute skeleton

The cache store keys reports by `(report_type, symbol)` and holds serialized
records (dicts of field/value pairs). The store itself
(`src/lib/supabase_cache.py`) is absent from the sources; its `get`/`put`
contract is modelled from the spec. The retrieval tasks
(`legacy/tasks/cache_retrieval/*.py`) and the subflow skeleton
(`legacy/flows/subflows/*.py`) are transcribed from the sources. -/

/-- A cached payload: the serialized record, a dict of field/value pairs as
returned by `get_cached_report`. -/
abbrev Payload := List (String × JValue)

/-- The report store: entries keyed by `(report_type, symbol)`. The most
recent write for a key shadows earlier ones (last write wins). -/
abbrev CacheStore := List ((String × String) × Payload)

/-- Cache read, `get_cached_report(report_type, symbol)`: the stored payload
for the key, or `none` (MISS). -/
def get_cached_report (store : CacheStore) (report_type symbol : String) : Option Payload :=
  store.lookup (report_type, symbol)

/-- Modelled from the spec: `cache_report` of `src/lib/supabase_cache.py` is
absent from the sources; per spec section 6 the cached payload is "the
record's full serialized form plus cache-internal metadata keys
(conventionally prefixed so callers can strip them before reconstruction)",
the prefix being `_cache_` as witnessed by the retrieval tasks. -/
def cache_report (store : CacheStore) (report_type symbol : String) (fields : Payload) :
    CacheStore :=
  ((report_type, symbol),
    ("_cache_report_type", JValue.str report_type) ::
    ("_cache_symbol", JValue.str symbol) :: fields) :: store

/-- Python's `str.startswith`, on the string's character list. -/
def startswith (k pre : String) : Bool := pre.data.isPrefixOf k.data

/-- The metadata-stripping step of every cache retrieval task:
`clean_data = {k: v for k, v in cached_report.items() if not k.startswith('_cache_')}`. -/
def clean_data (p : Payload) : Payload :=
  p.filter (fun kv => !(startswith kv.1 "_cache_"))

/-- The observable steps of one cached subflow, in invocation order: the cache
read performed by the retrieval task, the fetch task, the analysis task, and
the reporting task (which performs the cache write). -/
inductive StageStep where
  | cacheRead
  | fetchStep
  | analyzeStep
  | reportStep
deriving DecidableEq, Repr

/-- The cache retrieval task pattern, replicated across
`legacy/tasks/cache_retrieval/*.py` (e.g.
`forward_pe_valuation_cache_retrieval_task`): with `force_recompute` it
returns `None` before any cache access; otherwise it reads the cache, strips
the `_cache_` metadata keys, and attempts the pydantic record reconstruction
(`reconstruct`, an external validation step that may throw); a reconstruction
failure is caught and treated as a MISS (`None`). Returns the retrieval
result together with the trace of steps performed. -/
def cache_retrieval_task {Rec : Type} (reconstruct : Payload → Except String Rec)
    (store : CacheStore) (report_type symbol : String) (force_recompute : Bool) :
    Option Rec × List StageStep :=
  if force_recompute then
    (none, [])
  else
    match get_cached_report store report_type symbol with
    | some cached_report =>
        match reconstruct (clean_data cached_report) with
        | .ok r => (some r, [.cacheRead])
        | .error _ => (none, [.cacheRead])
    | none => (none, [.cacheRead])

/-- One per-stage cache-or-compute subflow, the pattern replicated across
`legacy/flows/subflows/*.py`: a report type, the pydantic reconstruction used
by its cache retrieval task, the serialization used by its reporting task
(`model_dump`), its fetch task and its analysis task. -/
structure CachedStage (Raw Rec : Type) where
  report_type : String
  reconstruct : Payload → Except String Rec
  serialize : Rec → Payload
  fetch_data : String → Raw
  analyze_data : String → Raw → Rec

/-- Result of running one cached subflow: the returned record, the updated
report store, and the trace of steps performed. -/
structure StageOutcome (Rec : Type) where
  result : Rec
  store : CacheStore
  steps : List StageStep

/-- The subflow skeleton shared by the per-stage flows (e.g.
`historical_earnings_flow`, `forward_pe_flow`): try the cache retrieval task
first and return the reconstructed cached record immediately on a hit;
otherwise run the fetch task, then the analysis task, then the reporting task,
which writes the serialized result back to the report store (`cache_report`
with a 24-hour TTL). -/
def run_cached_stage {Raw Rec : Type} (st : CachedStage Raw Rec) (store : CacheStore)
    (symbol : String) (force_recompute : Bool) : StageOutcome Rec :=
  match cache_retrieval_task st.reconstruct store st.report_type symbol force_recompute with
  | (some cached_result, steps) => ⟨cached_result, store, steps⟩
  | (none, steps) =>
      let raw := st.fetch_data symbol
      let analysis := st.analyze_data symbol raw
      let store2 := cache_report store st.report_type symbol (st.serialize analysis)
      ⟨analysis, store2, steps ++ [.fetchStep, .analyzeStep, .reportStep]⟩

/-- A concrete instance of the cached-subflow pattern used to evaluate the
cache theorems on explicit inputs: records are integers, serialized as a
single `value` field, with the reconstruction failing on any other shape. -/
def intStage : CachedStage Unit Int where
  report_type := "forward_pe_valuation"
  reconstruct := fun p =>
    match p.lookup "value" with
    | some (JValue.num n) => .ok n
    | _ => .error "1 validation error for ForwardPeValuation"
  serialize := fun n => [("value", JValue.num n)]
  fetch_data := fun _ => ()
  analyze_data := fun _ _ => 7

/-! ## Run-level semantics: `run_research_background` in `server/api.py`

`main_research_flow` awaits its stages in `mainFlowOrder` with no exception
handler of its own, so the first stage exception aborts the remaining
sequence; `run_research_background` catches it, marks the job FAILED with
`error=str(e)` and attaches no result (`server/api.py` lines 45-63). -/

/-- Job status enumeration from `src/lib/supabase_job_tracker.py`. -/
inductive JobStatus where
  | pending
  | running
  | completed
  | failed
  | cancelled
deriving DecidableEq, Repr

/-- The observable final job record written by `run_research_background`:
status, the `error` field, and whether a run result was attached. -/
structure JobRecord where
  status : JobStatus
  error : Option String
  has_result : Bool
deriving DecidableEq, Repr

/-- Sequential execution of the orchestrator's stage list, each stage run by
an external implementation that may throw: the trace of stages actually
invoked, and the first exception message if one was raised (after which no
further stage runs — the `await` sequence of `main_research_flow` has no
handler). -/
def run_stages (impl : Stage → Except String Unit) : List Stage → List Stage × Option String
  | [] => ([], none)
  | s :: rest =>
      match impl s with
      | .ok _ =>
          let t := run_stages impl rest
          (s :: t.1, t.2)
      | .error msg => ([s], some msg)

/-- `run_research_background` (`server/api.py`): runs `main_research_flow`
and marks the job COMPLETED with the result, or — if the flow raised — FAILED
with `error=str(e)` and no result. Returns the final job record and the trace
of stages invoked. -/
def run_research_background (impl : Stage → Except String Unit) : JobRecord × List Stage :=
  let t := run_stages impl mainFlowOrder
  match t.2 with
  | none => (⟨.completed, none, true⟩, t.1)
  | some m => (⟨.failed, some m, false⟩, t.1)

/-- A concrete stage implementation whose historical-earnings analysis throws,
used to evaluate the abort theorem (spec scenario "early-stage failure"). -/
def failing_impl : Stage → Except String Unit
  | .historicalEarnings => .error "Historical earnings data unavailable"
  | _ => .ok ()

/-! ## The cross-reference reconciler

`legacy/flows/subflows/cross_reference_flow.py` and
`legacy/research/cross_reference/cross_reference_models.py`. The six analyses
are opaque upstream records of a common parameter type (the Python code
passes them as untyped `Any` values and serializes them into the LLM input). -/

/-- The `Flows` enumeration of `cross_reference_models.py`. -/
inductive Flows where
  | historical_earnings
  | financial_statements
  | earnings_projections
  | management_guidance
  | forward_pe
  | news_sentiment
deriving DecidableEq, Repr

/-- A major adjustment recommendation (`cross_reference_models.py`). -/
structure MajorAdjustment where
  analysis_types_causing_discrepancy : List Flows
  adjustment_analysis : String
  adjustment_reasoning : String
deriving DecidableEq, Repr

/-- A minor adjustment recommendation (`cross_reference_models.py`). -/
structure MinorAdjustment where
  analysis_types_causing_discrepancy : List Flows
  adjustment_analysis : String
  adjustment_reasoning : String
deriving DecidableEq, Repr

/-- The cross-referenced analysis payload: two optional adjustment lists. -/
structure CrossReferencedAnalysis where
  major_adjustments : Option (List MajorAdjustment)
  minor_adjustments : Option (List MinorAdjustment)
deriving DecidableEq, Repr

/-- One reconciliation pass result: the original analysis tag plus the
adjustments (`cross_reference_models.py`). -/
structure CrossReferencedAnalysisCompletion where
  original_analysis_type : Flows
  cross_referenced_analysis : CrossReferencedAnalysis
deriving DecidableEq, Repr

/-- The dataclass `CrossReferenceContext` of `cross_reference_flow.py`,
holding the six core analyses for one symbol. -/
structure CrossReferenceContext (α : Type) where
  symbol : String
  forward_pe_flow_result : α
  news_sentiment_flow_result : α
  historical_earnings_analysis : α
  financial_statements_analysis : α
  earnings_projections_analysis : α
  management_guidance_analysis : α

/-- One invocation of `cross_reference_task`: the arguments from which the
task builds the LLM input
(`f"original_symbol: ..., original_analysis_type: ..., original_analysis: ...,
data_points: ..."`). -/
structure CrossRefCall (α : Type) where
  symbol : String
  original_analysis_type : String
  original_analysis : α
  data_points : List α

/-- The `forward_pe_cross_reference` pass: original is the forward-PE result,
data points are the other five analyses, in source order. -/
def forward_pe_cross_reference {α : Type} (context : CrossReferenceContext α) :
    CrossRefCall α :=
  { symbol := context.symbol
  , original_analysis_type := "forward_pe"
  , original_analysis := context.forward_pe_flow_result
  , data_points :=
      [ context.news_sentiment_flow_result
      , context.historical_earnings_analysis
      , context.financial_statements_analysis
      , context.earnings_projections_analysis
      , context.management_guidance_analysis ] }

/-- The `news_sentiment_cross_reference` pass. -/
def news_sentiment_cross_reference {α : Type} (context : CrossReferenceContext α) :
    CrossRefCall α :=
  { symbol := context.symbol
  , original_analysis_type := "news_sentiment"
  , original_analysis := context.news_sentiment_flow_result
  , data_points :=
      [ context.forward_pe_flow_result
      , context.historical_earnings_analysis
      , context.financial_statements_analysis
      , context.earnings_projections_analysis
      , context.management_guidance_analysis ] }

/-- The `historical_earnings_cross_reference` pass. -/
def historical_earnings_cross_reference {α : Type} (context : CrossReferenceContext α) :
    CrossRefCall α :=
  { symbol := context.symbol
  , original_analysis_type := "historical_earnings"
  , original_analysis := context.historical_earnings_analysis
  , data_points :=
      [ context.forward_pe_flow_result
      , context.news_sentiment_flow_result
      , context.financial_statements_analysis
      , context.earnings_projections_analysis
      , context.management_guidance_analysis ] }

/-- The `financial_statements_cross_reference` pass. -/
def financial_statements_cross_reference {α : Type} (context : CrossReferenceContext α) :
    CrossRefCall α :=
  { symbol := context.symbol
  , original_analysis_type := "financial_statements"
  , original_analysis := context.financial_statements_analysis
  , data_points :=
      [ context.forward_pe_flow_result
      , context.historical_earnings_analysis
      , context.news_sentiment_flow_result
      , context.earnings_projections_analysis
      , context.management_guidance_analysis ] }

/-- The `earnings_projections_cross_reference` pass. -/
def earnings_projections_cross_reference {α : Type} (context : CrossReferenceContext α) :
    CrossRefCall α :=
  { symbol := context.symbol
  , original_analysis_type := "earnings_projections"
  , original_analysis := context.earnings_projections_analysis
  , data_points :=
      [ context.forward_pe_flow_result
      , context.historical_earnings_analysis
      , context.news_sentiment_flow_result
      , context.financial_statements_analysis
      , context.management_guidance_analysis ] }

/-- The `management_guidance_cross_reference` pass. -/
def management_guidance_cross_reference {α : Type} (context : CrossReferenceContext α) :
    CrossRefCall α :=
  { symbol := context.symbol
  , original_analysis_type := "management_guidance"
  , original_analysis := context.management_guidance_analysis
  , data_points :=
      [ context.forward_pe_flow_result
      , context.historical_earnings_analysis
      , context.news_sentiment_flow_result
      , context.financial_statements_analysis
      , context.earnings_projections_analysis ] }

/-- The six reconciliation passes of `cross_reference_flow`, in invocation
order. -/
def cross_reference_calls {α : Type} (context : CrossReferenceContext α) :
    List (CrossRefCall α) :=
  [ forward_pe_cross_reference context
  , news_sentiment_cross_reference context
  , historical_earnings_cross_reference context
  , financial_statements_cross_reference context
  , earnings_projections_cross_reference context
  , management_guidance_cross_reference context ]

/-- `cross_reference_flow`: returns the cached completions when the retrieval
task hit; otherwise performs the six reconciliation passes, each delegating
to the LLM collaborator (`cross_reference_task` returns `result.final_output`
with no further check), and returns the six completions. The best-effort
reporting write is modelled by the cached-stage skeleton and does not affect
the returned value. The second component is the trace of pass invocations
made. -/
def cross_reference_flow {α : Type}
    (runLLM : CrossRefCall α → CrossReferencedAnalysisCompletion)
    (cached_result : Option (List CrossReferencedAnalysisCompletion))
    (context : CrossReferenceContext α) :
    List CrossReferencedAnalysisCompletion × List (CrossRefCall α) :=
  match cached_result with
  | some cached => (cached, [])
  | none => ((cross_reference_calls context).map runLLM, cross_reference_calls context)

/-- A schema-valid LLM output that tags every pass as forward-PE and cites
forward-PE itself as the discrepancy source; the output type
(`CrossReferencedAnalysisCompletion`) accepts it, and `cross_reference_task`
performs no further check on `result.final_output`. -/
def bad_completion : CrossReferencedAnalysisCompletion :=
  { original_analysis_type := .forward_pe
  , cross_referenced_analysis :=
    { major_adjustments := some
        [ { analysis_types_causing_discrepancy := [.forward_pe]
          , adjustment_analysis := "lower the target multiple"
          , adjustment_reasoning := "valuation conflicts with itself" } ]
    , minor_adjustments := none } }

/-- Concrete six-analysis context used to evaluate the reconciler theorems. -/
def cex_context : CrossReferenceContext String :=
  { symbol := "AAPL"
  , forward_pe_flow_result := "forward pe valuation record"
  , news_sentiment_flow_result := "news sentiment record"
  , historical_earnings_analysis := "historical earnings record"
  , financial_statements_analysis := "financial statements record"
  , earnings_projections_analysis := "earnings projections record"
  , management_guidance_analysis := "management guidance record" }

/-! ## Fetch stages

Per-domain fetch utilities. Each Alpha Vantage call is an external
collaborator that may throw; a provider payload is a JSON-like dict. -/

/-- The provider's earnings payload shape used by the fetch utilities:
`quarterlyEarnings` and `annualEarnings` rows (`.get` with `[]` default). -/
structure RawEarnings where
  quarterlyEarnings : List JValue
  annualEarnings : List JValue

/-- The provider's statement payload shape: `annualReports` and
`quarterlyReports` rows (`.get` with `[]` default). -/
structure RawStatements where
  annualReports : List JValue
  quarterlyReports : List JValue

/-- `HistoricalEarningsData` (`historical_earnings_models.py`). -/
structure HistoricalEarningsData where
  symbol : String
  quarterly_earnings : List JValue
  annual_earnings : List JValue
  income_statement : List JValue

/-- `get_historical_earnings_data_for_symbol`
(`legacy/research/historical_earnings/historical_earnings_util.py` lines
19-61): fetch earnings then income statements, truncate to the most recent
10 quarterly rows, 5 annual rows and 5 annual income statements (the
truncations are guarded by Python truthiness of the lists), and on any
exception return the empty-but-valid record for the symbol. -/
def get_historical_earnings_data_for_symbol
    (call_alpha_vantage_earnings : String → Except String RawEarnings)
    (call_alpha_vantage_income_statement : String → Except String RawStatements)
    (symbol : String) : HistoricalEarningsData :=
  match call_alpha_vantage_earnings symbol with
  | .error _ => ⟨symbol, [], [], []⟩
  | .ok raw_earnings =>
      match call_alpha_vantage_income_statement symbol with
      | .error _ => ⟨symbol, [], [], []⟩
      | .ok income_statement =>
          let quarterly_earnings := raw_earnings.quarterlyEarnings
          let annual_earnings := raw_earnings.annualEarnings
          let income_statement_data := income_statement.annualReports
          let quarterly_earnings :=
            if quarterly_earnings.isEmpty then quarterly_earnings
            else quarterly_earnings.take 10
          let annual_earnings :=
            if annual_earnings.isEmpty then annual_earnings else annual_earnings.take 5
          let income_statement_data :=
            if income_statement_data.isEmpty then income_statement_data
            else income_statement_data.take 5
          ⟨symbol, quarterly_earnings, annual_earnings, income_statement_data⟩

/-- `FinancialStatementsData` (`financial_statements_models.py`). -/
structure FinancialStatementsData where
  symbol : String
  income_statements : List JValue
  balance_sheets : List JValue
  cash_flow_statements : List JValue

/-- `get_financial_statements_data_for_symbol`
(`legacy/research/financial_statements/financial_statements_util.py` lines
18-47): fetch the three statements, keep the most recent 3 annual reports of
each, and on any exception return the empty-but-valid record. -/
def get_financial_statements_data_for_symbol
    (call_alpha_vantage_income_statement : String → Except String RawStatements)
    (call_alpha_vantage_balance_sheet : String → Except String RawStatements)
    (call_alpha_vantage_cash_flow : String → Except String RawStatements)
    (symbol : String) : FinancialStatementsData :=
  match call_alpha_vantage_income_statement symbol with
  | .error _ => ⟨symbol, [], [], []⟩
  | .ok income_statement =>
      match call_alpha_vantage_balance_sheet symbol with
      | .error _ => ⟨symbol, [], [], []⟩
      | .ok balance_sheet =>
          match call_alpha_vantage_cash_flow symbol with
          | .error _ => ⟨symbol, [], [], []⟩
          | .ok cash_flow =>
              ⟨symbol, income_statement.annualReports.take 3,
               balance_sheet.annualReports.take 3, cash_flow.annualReports.take 3⟩

/-- The fiscal-timing decision computed by `log_fiscal_decision`
(`src/lib/fiscal_year_utils.py`, absent from the sources, treated as an
external collaborator): whether to use annual-focused data. -/
structure FiscalYearInfo where
  use_annual_data : Bool

/-- `EarningsProjectionData` (`earnings_projections_models.py`). -/
structure EarningsProjectionData where
  symbol : String
  quarterly_income_statements : List JValue
  annual_income_statements : List JValue
  overview_data : List (String × JValue)
  historical_earnings_analysis : Option Payload
  financial_statements_analysis : Option Payload

/-- `get_earnings_projection_data_for_symbol`
(`legacy/research/earnings_projections/earnings_projections_util.py` lines
26-69): consult the fiscal-timing heuristic, fetch income statements and
overview, keep 4 quarterly + 4 annual reports near fiscal year end and
8 quarterly + 3 annual mid-year, and on any exception return the empty
record (with an empty overview dict). -/
def get_earnings_projection_data_for_symbol
    (log_fiscal_decision : String → Except String FiscalYearInfo)
    (call_alpha_vantage_income_statement : String → Except String RawStatements)
    (call_alpha_vantage_overview : String → Except String (List (String × JValue)))
    (symbol : String)
    (historical_earnings_analysis financial_statements_analysis : Option Payload) :
    EarningsProjectionData :=
  match log_fiscal_decision symbol with
  | .error _ =>
      ⟨symbol, [], [], [], historical_earnings_analysis, financial_statements_analysis⟩
  | .ok fiscal_info =>
      match call_alpha_vantage_income_statement symbol with
      | .error _ =>
          ⟨symbol, [], [], [], historical_earnings_analysis, financial_statements_analysis⟩
      | .ok income_statement =>
          match call_alpha_vantage_overview symbol with
          | .error _ =>
              ⟨symbol, [], [], [], historical_earnings_analysis,
               financial_statements_analysis⟩
          | .ok overview =>
              if fiscal_info.use_annual_data then
                ⟨symbol, income_statement.quarterlyReports.take 4,
                 income_statement.annualReports.take 4, overview,
                 historical_earnings_analysis, financial_statements_analysis⟩
              else
                ⟨symbol, income_statement.quarterlyReports.take 8,
                 income_statement.annualReports.take 3, overview,
                 historical_earnings_analysis, financial_statements_analysis⟩

/-- The descriptive overview keys popped by `clean_overview_of_useless_data`
(`forward_pe_fetch_earnings_util.py`; the commented-out pops are retained in
the payload). -/
def useless_overview_keys : List String :=
  [ "Symbol", "AssetType", "Name", "Description", "CIK", "Exchange", "Currency"
  , "Country", "Sector", "Industry", "Address", "OfficialSite", "FiscalYearEnd"
  , "LatestQuarter", "SharesFloat", "PercentInsiders", "PercentInstitutions"
  , "DividendDate", "ExDividendDate", "AnalystRatingStrongBuy", "AnalystRatingBuy"
  , "AnalystRatingHold", "AnalystRatingSell", "AnalystRatingStrongSell" ]

/-- `clean_overview_of_useless_data`: strip the fixed list of descriptive
fields from the overview payload before passing it to the LLM. -/
def clean_overview_of_useless_data (overview : List (String × JValue)) :
    List (String × JValue) :=
  overview.filter (fun kv => !(useless_overview_keys.contains kv.1))

/-- The `estimate.get('horizon') == 'next fiscal quarter'` test of
`extract_next_quarter_eps_from_estimates`. -/
def horizon_is_next_fiscal_quarter : JValue → Bool
  | .obj fields =>
      match fields.lookup "horizon" with
      | some (.str h) => h == "next fiscal quarter"
      | _ => false
  | _ => false

/-- `extract_next_quarter_eps_from_estimates`
(`forward_pe_fetch_earnings_util.py` lines 57-77): the first estimate whose
horizon is the next fiscal quarter, else the first estimate, else the
"Not enough consensus" fallback; any shape error is caught into the same
fallback. -/
def extract_next_quarter_eps_from_estimates (estimates_json : List (String × JValue)) :
    String :=
  match (estimates_json.lookup "estimates").getD (JValue.arr []) with
  | .arr estimates =>
      if estimates.isEmpty then "Not enough consensus"
      else
        match estimates.find? horizon_is_next_fiscal_quarter with
        | some estimate =>
            py_fstr (((match estimate with
              | .obj fields => fields.lookup "eps_estimate_average"
              | _ => none)).getD (.str "Not enough consensus"))
        | none =>
            match estimates.head? with
            | some estimate =>
                py_fstr (((match estimate with
                  | .obj fields => fields.lookup "eps_estimate_average"
                  | _ => none)).getD (.str "Not enough consensus"))
            | none => "Not enough consensus"
  | _ => "Not enough consensus"

/-- `ForwardPEEarningsSummary` (`forward_pe_models.py`); the current price is
kept as the raw provider value. -/
structure ForwardPEEarningsSummary where
  symbol : String
  overview : List (String × JValue)
  current_price : JValue
  quarterly_earnings : List JValue
  consensus_eps_next_quarter : String

/-- `get_quarterly_eps_data_for_symbol`
(`legacy/research/forward_pe/forward_pe_fetch_earnings_util.py` lines 10-54):
the forward-PE earnings fetch. It has NO exception handler: any collaborator
exception (including a KeyError on the quote payload) propagates to the
caller. Keeps 4 trailing quarters near fiscal year end, 9 mid-year. -/
def get_quarterly_eps_data_for_symbol
    (log_fiscal_decision : String → Except String FiscalYearInfo)
    (call_alpha_vantage_earnings : String → Except String RawEarnings)
    (call_alpha_vantage_global_quote : String → Except String (List (String × JValue)))
    (call_alpha_vantage_overview : String → Except String (List (String × JValue)))
    (call_alpha_vantage_earnings_estimates : String → Except String (List (String × JValue)))
    (symbol : String) : Except String ForwardPEEarningsSummary :=
  match log_fiscal_decision symbol with
  | .error err => .error err
  | .ok fiscal_info =>
      match call_alpha_vantage_earnings symbol with
      | .error err => .error err
      | .ok raw_earnings =>
          match call_alpha_vantage_global_quote symbol with
          | .error err => .error err
          | .ok raw_global_quote =>
              match dict_item raw_global_quote "Global Quote" with
              | .error err => .error err
              | .ok global_quote =>
                  match (match global_quote with
                         | .obj fields => dict_item fields "05. price"
                         | _ => .error "TypeError: value is not subscriptable") with
                  | .error err => .error err
                  | .ok current_price =>
                      match call_alpha_vantage_overview symbol with
                      | .error err => .error err
                      | .ok overview0 =>
                          let overview := clean_overview_of_useless_data overview0
                          let quarters : Nat := if fiscal_info.use_annual_data then 4 else 9
                          let quarterly_earnings :=
                            if raw_earnings.quarterlyEarnings.isEmpty then
                              raw_earnings.quarterlyEarnings
                            else raw_earnings.quarterlyEarnings.take quarters
                          match call_alpha_vantage_earnings_estimates symbol with
                          | .error err => .error err
                          | .ok estimates_json =>
                              .ok ⟨symbol, overview, current_price, quarterly_earnings,
                                   extract_next_quarter_eps_from_estimates estimates_json⟩

/-- `RawNewsSentimentSummary` as constructed by
`get_news_sentiment_summary_for_peer_group`: the peer symbol plus the cleaned
provider payload (passed as keyword arguments). -/
structure RawNewsSentimentSummary where
  symbol : String
  fields : List (String × JValue)

/-- The keys popped from each feed item by
`clean_news_sentiment_of_useless_data`. -/
def useless_news_item_keys : List String :=
  [ "title", "url", "time_published", "authors", "summary", "banner_image"
  , "source", "category_within_source", "source_domain", "topics" ]

/-- Cleaning of one feed item (a dict): pop the descriptive keys. -/
def clean_news_item : JValue → JValue
  | .obj fields => .obj (fields.filter (fun kv => !(useless_news_item_keys.contains kv.1)))
  | v => v

/-- `clean_news_sentiment_of_useless_data`
(`news_sentiment_util.py` lines 20-35): pop the top-level definition keys and
strip each feed item in place. -/
def clean_news_sentiment_of_useless_data (news_sentiment_dict : List (String × JValue)) :
    List (String × JValue) :=
  let d := news_sentiment_dict.filter (fun kv =>
    !(["items", "sentiment_score_definition", "relevance_score_definition"].contains kv.1))
  d.map (fun kv => if kv.1 == "feed" then
      (kv.1, match kv.2 with
             | .arr feed => .arr (feed.map clean_news_item)
             | v => v)
    else kv)

/-- `get_news_sentiment_summary_for_peer_group`
(`legacy/research/news_sentiment/news_sentiment_util.py` lines 8-18): loop
over the peers; a peer whose payload has no `feed` key is skipped; the loop
has NO exception handler, so a collaborator exception propagates. -/
def get_news_sentiment_summary_for_peer_group
    (call_alpha_vantage_news_sentiment : String → Except String (List (String × JValue))) :
    List String → Except String (List RawNewsSentimentSummary)
  | [] => .ok []
  | peer :: rest => do
      let news_sentiment_dict ← call_alpha_vantage_news_sentiment peer
      match news_sentiment_dict.lookup "feed" with
      | none =>
          get_news_sentiment_summary_for_peer_group call_alpha_vantage_news_sentiment rest
      | some _ =>
          let clean := clean_news_sentiment_of_useless_data news_sentiment_dict
          let tail ←
            get_news_sentiment_summary_for_peer_group call_alpha_vantage_news_sentiment rest
          pure (⟨peer, clean⟩ :: tail)

/-- `CompanyOverviewData` (`company_overview_models.py`): the symbol plus the
optional overview fields; field values are kept as raw provider values (the
pydantic `Optional[str]` typing of each field is not re-modelled). -/
structure CompanyOverviewData where
  symbol : JValue
  asset_type : Option JValue := none
  name : Option JValue := none
  description : Option JValue := none
  cik : Option JValue := none
  exchange : Option JValue := none
  currency : Option JValue := none
  country : Option JValue := none
  sector : Option JValue := none
  industry : Option JValue := none
  address : Option JValue := none
  fiscal_year_end : Option JValue := none
  latest_quarter : Option JValue := none
  market_capitalization : Option JValue := none
  ebitda : Option JValue := none
  pe_ratio : Option JValue := none
  peg_ratio : Option JValue := none
  book_value : Option JValue := none
  dividend_per_share : Option JValue := none
  dividend_yield : Option JValue := none
  eps : Option JValue := none
  revenue_per_share_ttm : Option JValue := none
  profit_margin : Option JValue := none
  operating_margin_ttm : Option JValue := none
  return_on_assets_ttm : Option JValue := none
  return_on_equity_ttm : Option JValue := none
  revenue_ttm : Option JValue := none
  gross_profit_ttm : Option JValue := none
  diluted_eps_ttm : Option JValue := none
  quarterly_earnings_growth_yoy : Option JValue := none
  quarterly_revenue_growth_yoy : Option JValue := none
  analyst_target_price : Option JValue := none
  trailing_pe : Option JValue := none
  forward_pe : Option JValue := none
  price_to_sales_ratio_ttm : Option JValue := none
  price_to_book_ratio : Option JValue := none
  ev_to_revenue : Option JValue := none
  ev_to_ebitda : Option JValue := none
  beta : Option JValue := none
  week_52_high : Option JValue := none
  week_52_low : Option JValue := none
  day_50_moving_average : Option JValue := none
  day_200_moving_average : Option JValue := none
  shares_outstanding : Option JValue := none
  dividend_date : Option JValue := none
  ex_dividend_date : Option JValue := none

/-- `get_company_overview_data_for_symbol`
(`legacy/research/company_overview/company_overview_util.py` lines 9-80):
map the overview payload keys into the record via `.get`; on any exception
return the minimal record carrying only the symbol. -/
def get_company_overview_data_for_symbol
    (call_alpha_vantage_overview : String → Except String (List (String × JValue)))
    (symbol : String) : CompanyOverviewData :=
  match call_alpha_vantage_overview symbol with
  | .ok overview_data =>
      { symbol := (overview_data.lookup "Symbol").getD (.str symbol)
      , asset_type := overview_data.lookup "AssetType"
      , name := overview_data.lookup "Name"
      , description := overview_data.lookup "Description"
      , cik := overview_data.lookup "CIK"
      , exchange := overview_data.lookup "Exchange"
      , currency := overview_data.lookup "Currency"
      , country := overview_data.lookup "Country"
      , sector := overview_data.lookup "Sector"
      , industry := overview_data.lookup "Industry"
      , address := overview_data.lookup "Address"
      , fiscal_year_end := overview_data.lookup "FiscalYearEnd"
      , latest_quarter := overview_data.lookup "LatestQuarter"
      , market_capitalization := overview_data.lookup "MarketCapitalization"
      , ebitda := overview_data.lookup "EBITDA"
      , pe_ratio := overview_data.lookup "PERatio"
      , peg_ratio := overview_data.lookup "PEGRatio"
      , book_value := overview_data.lookup "BookValue"
      , dividend_per_share := overview_data.lookup "DividendPerShare"
      , dividend_yield := overview_data.lookup "DividendYield"
      , eps := overview_data.lookup "EPS"
      , revenue_per_share_ttm := overview_data.lookup "RevenuePerShareTTM"
      , profit_margin := overview_data.lookup "ProfitMargin"
      , operating_margin_ttm := overview_data.lookup "OperatingMarginTTM"
      , return_on_assets_ttm := overview_data.lookup "ReturnOnAssetsTTM"
      , return_on_equity_ttm := overview_data.lookup "ReturnOnEquityTTM"
      , revenue_ttm := overview_data.lookup "RevenueTTM"
      , gross_profit_ttm := overview_data.lookup "GrossProfitTTM"
      , diluted_eps_ttm := overview_data.lookup "DilutedEPSTTM"
      , quarterly_earnings_growth_yoy := overview_data.lookup "QuarterlyEarningsGrowthYOY"
      , quarterly_revenue_growth_yoy := overview_data.lookup "QuarterlyRevenueGrowthYOY"
      , analyst_target_price := overview_data.lookup "AnalystTargetPrice"
      , trailing_pe := overview_data.lookup "TrailingPE"
      , forward_pe := overview_data.lookup "ForwardPE"
      , price_to_sales_ratio_ttm := overview_data.lookup "PriceToSalesRatioTTM"
      , price_to_book_ratio := overview_data.lookup "PriceToBookRatio"
      , ev_to_revenue := overview_data.lookup "EVToRevenue"
      , ev_to_ebitda := overview_data.lookup "EVToEBITDA"
      , beta := overview_data.lookup "Beta"
      , week_52_high := overview_data.lookup "52WeekHigh"
      , week_52_low := overview_data.lookup "52WeekLow"
      , day_50_moving_average := overview_data.lookup "50DayMovingAverage"
      , day_200_moving_average := overview_data.lookup "200DayMovingAverage"
      , shares_outstanding := overview_data.lookup "SharesOutstanding"
      , dividend_date := overview_data.lookup "DividendDate"
      , ex_dividend_date := overview_data.lookup "ExDividendDate" }
  | .error _ => { symbol := .str symbol }

/-- `GlobalQuoteData` (`global_quote_models.py`). -/
structure GlobalQuoteData where
  symbol : String
  price : Option String
deriving DecidableEq, Repr

/-- `get_global_quote_data_for_symbol`
(`legacy/research/global_quote/global_quote_util.py` lines 8-39): read the
`Global Quote` sub-dict (default empty), build the record from
`01. symbol` (default the requested symbol) and `05. price`; any exception in
the body — including the payload not being a dict of strings, which would
fail the pydantic `str` fields — is caught into the minimal record. -/
def get_global_quote_data_for_symbol
    (call_alpha_vantage_global_quote : String → Except String (List (String × JValue)))
    (symbol : String) : GlobalQuoteData :=
  match call_alpha_vantage_global_quote symbol with
  | .ok quote_data =>
      match (quote_data.lookup "Global Quote").getD (JValue.obj []) with
      | .obj global_quote =>
          match (global_quote.lookup "01. symbol").getD (.str symbol),
                (global_quote.lookup "05. price").getD .null with
          | .str s, .str p => ⟨s, some p⟩
          | .str s, .null => ⟨s, none⟩
          | _, _ => ⟨symbol, none⟩
      | _ => ⟨symbol, none⟩
  | .error _ => ⟨symbol, none⟩

/-- `ManagementGuidanceData` (`management_guidance_models.py`). -/
structure ManagementGuidanceData where
  symbol : String
  earnings_estimates : List (String × JValue)
  earnings_transcript : Option (List (String × JValue))
  quarter : Option String

/-- `_determine_latest_transcript_quarter` (`management_guidance_util.py`
lines 65-91), with the system-clock read (`datetime.now()`) passed in. -/
def determine_latest_transcript_quarter (current_month current_year : Nat) : String :=
  if current_month ≤ 3 then toString (current_year - 1) ++ "Q4"
  else if current_month ≤ 6 then toString current_year ++ "Q1"
  else if current_month ≤ 9 then toString current_year ++ "Q2"
  else toString current_year ++ "Q3"

/-- `_get_previous_quarter` (`management_guidance_util.py` lines 94-110):
parse `YYYYQN` and step back one quarter. -/
def get_previous_quarter (quarter : String) : String :=
  let year := (String.mk (quarter.data.take 4)).toNat?.getD 0
  let q := (String.mk (quarter.data.drop 5)).toNat?.getD 0
  if q = 1 then toString (year - 1) ++ "Q4"
  else toString year ++ "Q" ++ toString (q - 1)

/-- `get_management_guidance_data_for_symbol`
(`legacy/research/management_guidance/management_guidance_util.py` lines
12-62): fetch the estimates, try the latest transcript quarter then the
previous one (each transcript failure caught separately), and on any other
exception return the record with empty estimates and no transcript. -/
def get_management_guidance_data_for_symbol
    (call_alpha_vantage_earnings_estimates :
      String → Except String (List (String × JValue)))
    (call_alpha_vantage_earnings_call_transcripts :
      String → String → Except String (List (String × JValue)))
    (current_month current_year : Nat) (symbol : String) : ManagementGuidanceData :=
  match call_alpha_vantage_earnings_estimates symbol with
  | .error _ => ⟨symbol, [], none, none⟩
  | .ok earnings_estimates =>
      let quarter := determine_latest_transcript_quarter current_month current_year
      match call_alpha_vantage_earnings_call_transcripts symbol quarter with
      | .ok earnings_transcript =>
          ⟨symbol, earnings_estimates, some earnings_transcript, some quarter⟩
      | .error _ =>
          let prev_quarter := get_previous_quarter quarter
          match call_alpha_vantage_earnings_call_transcripts symbol prev_quarter with
          | .ok earnings_transcript =>
              ⟨symbol, earnings_estimates, some earnings_transcript, some prev_quarter⟩
          | .error _ => ⟨symbol, earnings_estimates, none, none⟩

/-! ## The management-guidance analysis agent

`src/research/management_guidance/management_guidance_agent.py` and the
`ManagementGuidanceAnalysis` model (`management_guidance_models.py`). -/

/-- `GuidanceTone` enumeration. -/
inductive GuidanceTone where
  | OPTIMISTIC
  | CAUTIOUS
  | NEUTRAL
  | PESSIMISTIC
  | MIXED_SIGNALS
deriving DecidableEq, Repr

/-- `GuidanceDirection` enumeration. -/
inductive GuidanceDirection where
  | POSITIVE
  | NEGATIVE
  | NEUTRAL
  | UNCLEAR
deriving DecidableEq, Repr

/-- `GuidanceConfidence` enumeration. -/
inductive GuidanceConfidence where
  | HIGH
  | MEDIUM
  | LOW
  | INSUFFICIENT_DATA
deriving DecidableEq, Repr

/-- `ConsensusValidationSignal` enumeration. -/
inductive ConsensusValidationSignal where
  | BULLISH
  | BEARISH
  | NEUTRAL
  | MIXED
deriving DecidableEq, Repr

/-- `GuidanceIndicator` (`management_guidance_models.py`). -/
structure GuidanceIndicator where
  type : String
  direction : GuidanceDirection
  context : String
  impact_assessment : String
deriving DecidableEq, Repr

/-- `ManagementGuidanceAnalysis` (`management_guidance_models.py`). -/
structure ManagementGuidanceAnalysis where
  symbol : String
  quarter_analyzed : Option String
  transcript_available : Bool
  guidance_indicators : List GuidanceIndicator
  overall_guidance_tone : GuidanceTone
  risk_factors_mentioned : List String
  opportunities_mentioned : List String
  revenue_guidance_direction : Option GuidanceDirection
  margin_guidance_direction : Option GuidanceDirection
  eps_guidance_direction : Option GuidanceDirection
  guidance_confidence : GuidanceConfidence
  consensus_validation_signal : ConsensusValidationSignal
  key_guidance_summary : String
  long_form_analysis : String
  critical_insights : String
deriving DecidableEq, Repr

/-- Formatting of one transcript speaker segment inside
`_extract_transcript_content`: `.get` each of speaker/title/content with an
empty default, skip when the content is empty, and render
`Speaker (Title): Content` (the title only when present and different). -/
def format_speaker_segment (speaker_segment : List (String × JValue)) : Option String :=
  let speaker := py_fstr ((speaker_segment.lookup "speaker").getD (.str ""))
  let title := py_fstr ((speaker_segment.lookup "title").getD (.str ""))
  let content := py_fstr ((speaker_segment.lookup "content").getD (.str ""))
  if content ≠ "" then
    let speaker_info :=
      if title ≠ "" ∧ title ≠ speaker then speaker ++ " (" ++ title ++ ")" else speaker
    some (speaker_info ++ ": " ++ content)
  else none

/-- The per-segment loop of `_extract_transcript_content`: non-dict segments
are skipped, dict segments with empty content contribute nothing. -/
def transcript_parts : List JValue → List String
  | [] => []
  | (JValue.obj speaker_segment) :: rest =>
      match format_speaker_segment speaker_segment with
      | some part => part :: transcript_parts rest
      | none => transcript_parts rest
  | _ :: rest => transcript_parts rest

/-- `_extract_transcript_content`
(`src/research/management_guidance/management_guidance_agent.py` lines
102-148): join the speaker segments when `transcript` is a list with usable
segments; otherwise fall back to the first of the keys
`transcript`/`content`/`text`/`body` holding a truthy string longer than 100
characters; otherwise the first string value longer than 100 characters;
otherwise the empty string. -/
def extract_transcript_content (transcript_data : List (String × JValue)) : String :=
  let joined :=
    match transcript_data.lookup "transcript" with
    | some (JValue.arr segments) =>
        let parts := transcript_parts segments
        if parts.isEmpty then none
        else some (String.intercalate "\n\n" parts)
    | _ => none
  match joined with
  | some full_transcript => full_transcript
  | none =>
      match ["transcript", "content", "text", "body"].findSome? (fun key =>
          match transcript_data.lookup key with
          | some v =>
              if v.truthy then
                match v with
                | JValue.str content => if content.length > 100 then some content else none
                | _ => none
              else none
          | none => none) with
      | some content => content
      | none =>
          match transcript_data.findSome? (fun kv =>
              match kv.2 with
              | JValue.str v => if v.length > 100 then some v else none
              | _ => none) with
          | some v => v
          | none => ""

/-- `_create_no_transcript_analysis`: the degraded analysis when no transcript
is available. -/
def create_no_transcript_analysis (symbol : String) : ManagementGuidanceAnalysis where
  symbol := symbol
  quarter_analyzed := none
  transcript_available := false
  guidance_indicators := []
  overall_guidance_tone := .NEUTRAL
  risk_factors_mentioned := []
  opportunities_mentioned := []
  revenue_guidance_direction := none
  margin_guidance_direction := none
  eps_guidance_direction := none
  guidance_confidence := .LOW
  consensus_validation_signal := .NEUTRAL
  key_guidance_summary := "No earnings call transcript available for analysis"
  long_form_analysis :=
    "Management guidance analysis could not be performed due to lack of available earnings call transcript"
  critical_insights :=
    "No transcript available - unable to extract guidance signals for model calibration"

/-- `_create_error_analysis`: the degraded analysis when the LLM call throws. -/
def create_error_analysis (symbol error_msg : String) : ManagementGuidanceAnalysis where
  symbol := symbol
  quarter_analyzed := none
  transcript_available := false
  guidance_indicators := []
  overall_guidance_tone := .NEUTRAL
  risk_factors_mentioned := []
  opportunities_mentioned := []
  revenue_guidance_direction := none
  margin_guidance_direction := none
  eps_guidance_direction := none
  guidance_confidence := .LOW
  consensus_validation_signal := .NEUTRAL
  key_guidance_summary := "Analysis failed due to error: " ++ error_msg
  long_form_analysis := "Management guidance analysis encountered an error: " ++ error_msg
  critical_insights :=
    "Analysis failed - unable to extract insights due to error: " ++ error_msg

/-- `management_guidance_agent`
(`src/research/management_guidance/management_guidance_agent.py` lines
42-103): return the no-transcript analysis when the transcript is absent
(Python falsiness also covers an empty dict) or its content cannot be
extracted; otherwise build the LLM input (the serialized guidance data plus
the optional upstream contexts) and run the LLM, catching any exception into
the error analysis. The function is total: it always returns a valid record,
so the pipeline continues to subsequent stages. `py_repr_data` stands for the
Python `str()` rendering of the pydantic guidance-data object inside the
f-string. -/
def management_guidance_agent
    (runLLM : String → Except String ManagementGuidanceAnalysis)
    (py_repr_data : ManagementGuidanceData → String)
    (symbol : String) (guidance_data : ManagementGuidanceData)
    (historical_earnings_analysis financial_statements_analysis : Option String) :
    ManagementGuidanceAnalysis :=
  match guidance_data.earnings_transcript with
  | none => create_no_transcript_analysis symbol
  | some transcript_data =>
      if transcript_data.isEmpty then create_no_transcript_analysis symbol
      else
        let transcript_content := extract_transcript_content transcript_data
        if transcript_content = "" then create_no_transcript_analysis symbol
        else
          let input_data := "symbol: " ++ symbol ++ ", guidance_data: " ++
            py_repr_data guidance_data
          let input_data :=
            match historical_earnings_analysis with
            | some h => input_data ++ ", historical_earnings_analysis: " ++ h
            | none => input_data
          let input_data :=
            match financial_statements_analysis with
            | some f => input_data ++ ", financial_statements_analysis: " ++ f
            | none => input_data
          match runLLM input_data with
          | .ok analysis_result => analysis_result
          | .error e => create_error_analysis symbol e

/-! ## The peer-group resolver

`legacy/research/common/peer_group_agent.py` and
`legacy/research/common/models/peer_group.py`. -/

/-- The `PeerGroup` model: an original symbol and a list of ticker strings.
No size bound and no exclusion of the original symbol is declared. -/
structure PeerGroup where
  original_symbol : String
  peer_group : List String
deriving DecidableEq, Repr

/-- The input string built by `peer_group_agent`: the symbol plus, when the
(truthy) financial-statements context is supplied, its serialized form. -/
def peer_group_input (symbol : String) (financial_statements_analysis : Option String) :
    String :=
  let input_data := "original_symbol: " ++ symbol
  match financial_statements_analysis with
  | some f => input_data ++ ", financial_statements_analysis: " ++ f
  | none => input_data

/-- `peer_group_agent`: a single LLM call whose structured output is returned
unchecked (`result.final_output`). -/
def peer_group_agent (runLLM : String → PeerGroup) (symbol : String)
    (financial_statements_analysis : Option String) : PeerGroup :=
  runLLM (peer_group_input symbol financial_statements_analysis)

/-- Extraction of a string from a JSON value (pydantic `str` field). -/
def jStr? : JValue → Option String
  | .str s => some s
  | _ => none

/-- Elementwise extraction of strings (pydantic validation of each list
element). -/
def jStrListAux : List JValue → Option (List String)
  | [] => some []
  | v :: rest => do
      let s ← jStr? v
      let t ← jStrListAux rest
      pure (s :: t)

/-- Extraction of a list of strings from a JSON value (pydantic `List[str]`
field). -/
def jStrList? : JValue → Option (List String)
  | .arr xs => jStrListAux xs
  | _ => none

/-- The pydantic validation of the `PeerGroup` model on a JSON payload: it
requires `original_symbol` to be a string and `peer_group` to be a list of
strings, and nothing else. -/
def validate_peer_group (fields : List (String × JValue)) : Option PeerGroup := do
  let original_symbol ← (fields.lookup "original_symbol").bind jStr?
  let peer_group ← (fields.lookup "peer_group").bind jStrList?
  pure ⟨original_symbol, peer_group⟩

/-! ## Concrete provider payloads used to evaluate the fetch theorems -/

/-- An earnings payload with 11 quarterly and 6 annual rows (more than any
truncation bound keeps). -/
def wit_raw_earnings : RawEarnings :=
  ⟨(List.range 11).map (fun i => JValue.num i), (List.range 6).map (fun i => JValue.num i)⟩

/-- A statements payload with 6 annual and 9 quarterly reports. -/
def wit_statements : RawStatements :=
  ⟨(List.range 6).map (fun i => JValue.num i), (List.range 9).map (fun i => JValue.num i)⟩

/-- An estimates payload holding a next-fiscal-quarter consensus row. -/
def wit_estimates : List (String × JValue) :=
  [("estimates", JValue.arr [JValue.obj
    [("horizon", .str "next fiscal quarter"), ("eps_estimate_average", .str "2.05")]])]

/-- An overview payload with one descriptive key (stripped) and one numeric
key (kept). -/
def wit_overview : List (String × JValue) :=
  [("Name", .str "Test Co"), ("MarketCapitalization", .str "1000")]

/-! ## Helper lemmas -/

/-- Stripping drops a leading field whose key carries the cache-metadata
marker. -/
theorem clean_data_cons_meta (k : String) (v : JValue) (p : Payload)
    (h : startswith k "_cache_" = true) : clean_data ((k, v) :: p) = clean_data p := by
  simp [clean_data, List.filter_cons, h]

/-- The truthiness-guarded truncation of the fetch utilities
(`if rows: rows = rows[:n]`) agrees with plain truncation. -/
theorem take_truthy (l : List JValue) (n : Nat) :
    (if l.isEmpty then l else l.take n) = l.take n := by
  cases l <;> simp

/-- Mapping the string extractor over string-wrapped values recovers the
original list. -/
theorem jStrListAux_map_str (l : List String) :
    jStrListAux (l.map JValue.str) = some l := by
  induction l with
  | nil => rfl
  | cons a t ih => simp [jStrListAux, jStr?, ih]

/-- Sequential stage execution on a list whose prefix succeeds and whose next
stage throws: exactly the prefix and the throwing stage run, and its message
is surfaced. -/
theorem run_stages_fail_at (impl : Stage → Except String Unit)
    (pre post : List Stage) (s : Stage) (m : String)
    (hpre : ∀ x ∈ pre, impl x = .ok ())
    (hfail : impl s = .error m) :
    run_stages impl (pre ++ s :: post) = (pre ++ [s], some m) := by
  induction pre with
  | nil => simp [run_stages, hfail]
  | cons a t ih =>
      have ha : impl a = .ok () := hpre a (by simp)
      have ht : ∀ x ∈ t, impl x = .ok () := fun x hx => hpre x (by simp [hx])
      simp [run_stages, ha, ih ht]

/-! ## Claim theorems -/

/-- C1: The orchestrator invokes the pipeline stages in the fixed dependency
order of the DAG: earnings projections come after both historical earnings and
financial statements; forward PE comes after peer-group resolution; the
comprehensive report comes after all twelve upstream analyses
(company overview, global quote, historical earnings, financial statements,
earnings projections, management guidance, peer group, forward-PE sanity
check, forward-PE valuation, news sentiment, cross-reference, trade ideas);
and in general every argument a stage receives in `main_research_flow` was
produced at an earlier position of the invocation sequence. -/
theorem main_flow_dependency_order :
    (stagePos .historicalEarnings < stagePos .earningsProjections ∧
     stagePos .financialStatements < stagePos .earningsProjections) ∧
    (stagePos .peerGroup < stagePos .forwardPe) ∧
    (∀ d ∈ stageInputs .comprehensiveReport, stagePos d < stagePos .comprehensiveReport) ∧
    (∀ s ∈ mainFlowOrder, ∀ d ∈ stageInputs s, stagePos d < stagePos s) := by
  decide

/-- C3 counterexample: the peer-group stage of the pipeline receives no
`force_recompute` flag at all — `peer_group_agent` takes only the symbol and
the financial-statements context — so "every stage receives the run's
top-level flag unchanged" fails at the peer-group stage, which is one of the
orchestrator's stages. -/
theorem force_recompute_propagation_cex :
    stageForceArg true Stage.peerGroup = none ∧
    stageForceArg false Stage.peerGroup = none ∧
    Stage.peerGroup ∈ mainFlowOrder := by
  refine ⟨rfl, rfl, ?_⟩
  decide

/-- C3 (amended): Every cached stage invocation in `main_research_flow` receives the
run's top-level `force_recompute` flag unchanged (the thirteen flagged call
sites all forward the parameter), and with `force_recompute = true` a stage
performs no cache read (the retrieval task returns MISS before touching the
store), still runs its fetch and analysis steps, and its reporting step still
writes the freshly computed record to the report store under the stage's
`(report_type, symbol)` key. -/
theorem force_recompute_propagation_and_bypass {Raw Rec : Type} (st : CachedStage Raw Rec)
    (store : CacheStore) (symbol : String) (f : Bool) :
    (mainResearchFlowCalls f).map Prod.snd = List.replicate 13 f ∧
    (run_cached_stage st store symbol true).steps =
      [.fetchStep, .analyzeStep, .reportStep] ∧
    (run_cached_stage st store symbol true).result =
      st.analyze_data symbol (st.fetch_data symbol) ∧
    get_cached_report (run_cached_stage st store symbol true).store st.report_type symbol =
      some (("_cache_report_type", JValue.str st.report_type) ::
            ("_cache_symbol", JValue.str symbol) ::
            st.serialize (st.analyze_data symbol (st.fetch_data symbol))) := by
  refine ⟨rfl, rfl, rfl, ?_⟩
  simp [run_cached_stage, cache_retrieval_task, get_cached_report, cache_report, List.lookup]

/-- C4: With `force_recompute = false`, running a cached stage a second time
after a first run that missed the cache and successfully wrote its result
re-invokes neither the fetch step nor the analysis step, returns a record
equal to the first run's result, and returns it immediately after the cache
read, leaving the store unchanged. The hypotheses state that the first run
misses the cache, that the serialized record carries no `_cache_`-prefixed
field of its own, and that the pydantic reconstruction inverts serialization
(the record schema is unchanged between the two runs). -/
theorem cache_hit_idempotence {Raw Rec : Type} (st : CachedStage Raw Rec)
    (s0 : CacheStore) (symbol : String)
    (hmiss : get_cached_report s0 st.report_type symbol = none)
    (hkeys : clean_data (st.serialize (st.analyze_data symbol (st.fetch_data symbol))) =
             st.serialize (st.analyze_data symbol (st.fetch_data symbol)))
    (hround : st.reconstruct (st.serialize (st.analyze_data symbol (st.fetch_data symbol))) =
              .ok (st.analyze_data symbol (st.fetch_data symbol))) :
    (run_cached_stage st (run_cached_stage st s0 symbol false).store symbol false).result =
      (run_cached_stage st s0 symbol false).result ∧
    (run_cached_stage st (run_cached_stage st s0 symbol false).store symbol false).steps =
      [.cacheRead] ∧
    (run_cached_stage st s0 symbol false).steps =
      [.cacheRead, .fetchStep, .analyzeStep, .reportStep] ∧
    (run_cached_stage st (run_cached_stage st s0 symbol false).store symbol false).store =
      (run_cached_stage st s0 symbol false).store := by
  have h1 : run_cached_stage st s0 symbol false =
      ⟨st.analyze_data symbol (st.fetch_data symbol),
       cache_report s0 st.report_type symbol
         (st.serialize (st.analyze_data symbol (st.fetch_data symbol))),
       [.cacheRead, .fetchStep, .analyzeStep, .reportStep]⟩ := by
    simp [run_cached_stage, cache_retrieval_task, hmiss]
  rw [h1]
  have h2 : get_cached_report
      (cache_report s0 st.report_type symbol
        (st.serialize (st.analyze_data symbol (st.fetch_data symbol))))
      st.report_type symbol =
      some (("_cache_report_type", JValue.str st.report_type) ::
            ("_cache_symbol", JValue.str symbol) ::
            st.serialize (st.analyze_data symbol (st.fetch_data symbol))) := by
    simp [get_cached_report, cache_report, List.lookup]
  have h3 : clean_data
      (("_cache_report_type", JValue.str st.report_type) ::
       ("_cache_symbol", JValue.str symbol) ::
       st.serialize (st.analyze_data symbol (st.fetch_data symbol))) =
      st.serialize (st.analyze_data symbol (st.fetch_data symbol)) := by
    rw [clean_data_cons_meta "_cache_report_type" _ _ rfl,
        clean_data_cons_meta "_cache_symbol" _ _ rfl]
    exact hkeys
  simp [run_cached_stage, cache_retrieval_task, h2, h3, hround]

/-- C4 witness: evaluated on the concrete `intStage` over an empty store. -/
theorem cache_hit_idempotence_witness :
    (get_cached_report ([] : CacheStore) intStage.report_type "AAPL" = none) ∧
    ((run_cached_stage intStage (run_cached_stage intStage [] "AAPL" false).store
        "AAPL" false).result = (run_cached_stage intStage [] "AAPL" false).result ∧
     (run_cached_stage intStage (run_cached_stage intStage [] "AAPL" false).store
        "AAPL" false).steps = [.cacheRead] ∧
     (run_cached_stage intStage [] "AAPL" false).steps =
       [.cacheRead, .fetchStep, .analyzeStep, .reportStep] ∧
     (run_cached_stage intStage (run_cached_stage intStage [] "AAPL" false).store
        "AAPL" false).store = (run_cached_stage intStage [] "AAPL" false).store) :=
  ⟨rfl, cache_hit_idempotence intStage [] "AAPL" rfl (by rfl) (by rfl)⟩

/-- C5: A cache read whose stored payload fails record reconstruction (for
example because the stored shape no longer matches the current record schema)
never raises past the retrieval task: the failure is caught and the read
returns MISS (`None`), after exactly the one cache-read step, forcing fresh
computation. -/
theorem cache_get_schema_drift_is_miss {Rec : Type}
    (reconstruct : Payload → Except String Rec) (store : CacheStore)
    (report_type symbol : String) (p : Payload) (e : String)
    (hstored : get_cached_report store report_type symbol = some p)
    (hfail : reconstruct (clean_data p) = .error e) :
    cache_retrieval_task reconstruct store report_type symbol false =
      (none, [.cacheRead]) := by
  simp [cache_retrieval_task, hstored, hfail]

/-- C5 witness: a store holding a drifted payload (an old field layout with no
`value` field) for the forward-PE valuation key; the read is a MISS. -/
theorem cache_get_schema_drift_is_miss_witness :
    (get_cached_report [(("forward_pe_valuation", "AAPL"),
        [("legacy_field", JValue.str "x")])] "forward_pe_valuation" "AAPL" =
      some [("legacy_field", JValue.str "x")]) ∧
    cache_retrieval_task intStage.reconstruct
      [(("forward_pe_valuation", "AAPL"), [("legacy_field", JValue.str "x")])]
      "forward_pe_valuation" "AAPL" false = (none, [.cacheRead]) :=
  ⟨rfl, cache_get_schema_drift_is_miss intStage.reconstruct _ "forward_pe_valuation" "AAPL"
    [("legacy_field", JValue.str "x")] "1 validation error for ForwardPeValuation" rfl rfl⟩

/-- C8: When a stage of `main_research_flow` throws while every earlier stage
succeeded, the run aborts immediately: the stages actually invoked are
exactly the successful prefix plus the throwing stage (no later stage runs),
`run_research_background` marks the job FAILED, the exception message is
carried unchanged into the job's `error` field, and no result is attached
(all-or-nothing delivery). -/
theorem early_stage_failure_aborts_run (impl : Stage → Except String Unit)
    (pre post : List Stage) (s : Stage) (m : String)
    (horder : mainFlowOrder = pre ++ s :: post)
    (hpre : ∀ x ∈ pre, impl x = .ok ())
    (hfail : impl s = .error m) :
    run_research_background impl = (⟨.failed, some m, false⟩, pre ++ [s]) := by
  simp [run_research_background, horder, run_stages_fail_at impl pre post s m hpre hfail]

/-- C8 witness: the spec scenario — the historical-earnings analysis throws
"Historical earnings data unavailable"; only the two stages before it ran,
the job is FAILED with the message unchanged, and no result is attached. -/
theorem early_stage_failure_aborts_run_witness :
    run_research_background failing_impl =
      (⟨.failed, some "Historical earnings data unavailable", false⟩,
       [.companyOverview, .globalQuote, .historicalEarnings]) :=
  early_stage_failure_aborts_run failing_impl [.companyOverview, .globalQuote]
    [ .financialStatements, .earningsProjections, .managementGuidance, .peerGroup
    , .forwardPeSanityCheck, .forwardPe, .newsSentiment, .crossReference, .tradeIdeas
    , .comprehensiveReport, .keyInsights ]
    .historicalEarnings "Historical earnings data unavailable" rfl
    (by intro x hx; fin_cases hx <;> rfl) rfl

/-- C2 (amended): On a cache miss the reconciler performs exactly six
reconciliation passes, one per `Flows` value as the requested original type,
in the source order; each pass's data points are exactly the other five
analyses (the pass's own analysis is never among them); and the six emitted
completions are precisely the LLM collaborator's outputs for those six
requests — the flow applies no check to the returned tag or to the
`analysis_types_causing_discrepancy` lists. -/
theorem cross_reference_flow_structure {α : Type}
    (runLLM : CrossRefCall α → CrossReferencedAnalysisCompletion)
    (context : CrossReferenceContext α) :
    (cross_reference_flow runLLM none context).1.length = 6 ∧
    (cross_reference_flow runLLM none context).2.map CrossRefCall.original_analysis_type =
      [ "forward_pe", "news_sentiment", "historical_earnings", "financial_statements"
      , "earnings_projections", "management_guidance" ] ∧
    (cross_reference_flow runLLM none context).2.map CrossRefCall.original_analysis =
      [ context.forward_pe_flow_result, context.news_sentiment_flow_result
      , context.historical_earnings_analysis, context.financial_statements_analysis
      , context.earnings_projections_analysis, context.management_guidance_analysis ] ∧
    (cross_reference_flow runLLM none context).2.map CrossRefCall.data_points =
      [ [ context.news_sentiment_flow_result, context.historical_earnings_analysis
        , context.financial_statements_analysis, context.earnings_projections_analysis
        , context.management_guidance_analysis ]
      , [ context.forward_pe_flow_result, context.historical_earnings_analysis
        , context.financial_statements_analysis, context.earnings_projections_analysis
        , context.management_guidance_analysis ]
      , [ context.forward_pe_flow_result, context.news_sentiment_flow_result
        , context.financial_statements_analysis, context.earnings_projections_analysis
        , context.management_guidance_analysis ]
      , [ context.forward_pe_flow_result, context.historical_earnings_analysis
        , context.news_sentiment_flow_result, context.earnings_projections_analysis
        , context.management_guidance_analysis ]
      , [ context.forward_pe_flow_result, context.historical_earnings_analysis
        , context.news_sentiment_flow_result, context.financial_statements_analysis
        , context.management_guidance_analysis ]
      , [ context.forward_pe_flow_result, context.historical_earnings_analysis
        , context.news_sentiment_flow_result, context.financial_statements_analysis
        , context.earnings_projections_analysis ] ] ∧
    (cross_reference_flow runLLM none context).1 =
      (cross_reference_flow runLLM none context).2.map runLLM :=
  ⟨rfl, rfl, rfl, rfl, rfl⟩

/-- C2 counterexample: with a schema-valid LLM collaborator that tags every
completion as forward-PE and cites forward-PE itself inside a major
adjustment, the flow (cache miss, all six analyses present) emits six
completions all tagged `forward_pe` — not one per `Flows` value (the
`news_sentiment` tag occurs zero times) — and the completion emitted for the
forward-PE pass carries its own original type inside
`analysis_types_causing_discrepancy`. The flow returns `result.final_output`
unchecked, so the claimed invariant does not hold of the emitted objects. -/
theorem cross_reference_completeness_cex :
    ((cross_reference_flow (fun _ => bad_completion) none cex_context).1.map
        CrossReferencedAnalysisCompletion.original_analysis_type =
      [Flows.forward_pe, .forward_pe, .forward_pe, .forward_pe, .forward_pe, .forward_pe]) ∧
    (((cross_reference_flow (fun _ => bad_completion) none cex_context).1.map
        CrossReferencedAnalysisCompletion.original_analysis_type).count
        Flows.news_sentiment = 0) ∧
    ((cross_reference_flow (fun _ => bad_completion) none cex_context).1.head? =
      some bad_completion) ∧
    bad_completion.original_analysis_type = .forward_pe ∧
    bad_completion.cross_referenced_analysis.major_adjustments = some
      [⟨[.forward_pe], "lower the target multiple", "valuation conflicts with itself"⟩] := by
  refine ⟨rfl, ?_, rfl, rfl, rfl⟩
  decide

/-- C6 counterexample: two fetch stages do not catch collaborator exceptions.
The forward-PE earnings fetch (`get_quarterly_eps_data_for_symbol`, which has
no `try/except`) propagates the market-data exception for symbol "ZZZZ"
instead of returning a degraded record, and so does the news-sentiment
peer-summaries fetch. -/
theorem fetch_exception_propagates_cex :
    get_quarterly_eps_data_for_symbol (fun _ => .ok ⟨false⟩)
      (fun _ => .error "Alpha Vantage request failed")
      (fun _ => .error "Alpha Vantage request failed")
      (fun _ => .error "Alpha Vantage request failed")
      (fun _ => .error "Alpha Vantage request failed")
      "ZZZZ" = .error "Alpha Vantage request failed" ∧
    get_news_sentiment_summary_for_peer_group
      (fun _ => .error "Alpha Vantage request failed") ["ZZZZ"] =
      .error "Alpha Vantage request failed" :=
  ⟨rfl, rfl⟩

/-- C6 (amended): Every fetch stage except the forward-PE earnings fetch and
the news-sentiment peer-summaries fetch catches any exception raised by the
external market-data collaborator and returns a record populated with the
requested symbol and otherwise empty collections/defaults: the
historical-earnings fetch returns `quarterly_earnings == []`,
`annual_earnings == []`, `income_statement == []`; financial statements,
earnings projections, company overview, global quote and management guidance
degrade likewise. The hypotheses state that every market-data call for the
symbol raised while the fiscal-timing helper succeeded. -/
theorem fetch_degrade_not_fail (symbol e : String)
    (call_earnings : String → Except String RawEarnings)
    (call_income call_balance call_cash : String → Except String RawStatements)
    (log_fiscal : String → Except String FiscalYearInfo)
    (call_overview call_quote call_estimates :
      String → Except String (List (String × JValue)))
    (call_transcripts : String → String → Except String (List (String × JValue)))
    (month year : Nat) (fiscal_info : FiscalYearInfo)
    (hfisc : log_fiscal symbol = .ok fiscal_info)
    (hearn : call_earnings symbol = .error e)
    (hinc : call_income symbol = .error e)
    (hov : call_overview symbol = .error e)
    (hq : call_quote symbol = .error e)
    (hest : call_estimates symbol = .error e) :
    get_historical_earnings_data_for_symbol call_earnings call_income symbol =
      ⟨symbol, [], [], []⟩ ∧
    get_financial_statements_data_for_symbol call_income call_balance call_cash symbol =
      ⟨symbol, [], [], []⟩ ∧
    get_earnings_projection_data_for_symbol log_fiscal call_income call_overview symbol
      none none = ⟨symbol, [], [], [], none, none⟩ ∧
    get_company_overview_data_for_symbol call_overview symbol =
      { symbol := .str symbol } ∧
    get_global_quote_data_for_symbol call_quote symbol = ⟨symbol, none⟩ ∧
    get_management_guidance_data_for_symbol call_estimates call_transcripts month year
      symbol = ⟨symbol, [], none, none⟩ := by
  refine ⟨?_, ?_, ?_, ?_, ?_, ?_⟩
  · simp [get_historical_earnings_data_for_symbol, hearn]
  · simp [get_financial_statements_data_for_symbol, hinc]
  · simp [get_earnings_projection_data_for_symbol, hfisc, hinc]
  · simp [get_company_overview_data_for_symbol, hov]
  · simp [get_global_quote_data_for_symbol, hq]
  · simp [get_management_guidance_data_for_symbol, hest]

/-- C6 witness: all collaborators throwing for symbol "ZZZZ"; each degrading
fetch returns the empty-but-valid record carrying the symbol. -/
theorem fetch_degrade_not_fail_witness :
    get_historical_earnings_data_for_symbol
      (fun _ => .error "Alpha Vantage request failed")
      (fun _ => .error "Alpha Vantage request failed") "ZZZZ" = ⟨"ZZZZ", [], [], []⟩ ∧
    get_financial_statements_data_for_symbol
      (fun _ => .error "Alpha Vantage request failed")
      (fun _ => .error "Alpha Vantage request failed")
      (fun _ => .error "Alpha Vantage request failed") "ZZZZ" = ⟨"ZZZZ", [], [], []⟩ ∧
    get_earnings_projection_data_for_symbol
      (fun _ => .ok ⟨false⟩)
      (fun _ => .error "Alpha Vantage request failed")
      (fun _ => .error "Alpha Vantage request failed") "ZZZZ" none none =
      ⟨"ZZZZ", [], [], [], none, none⟩ ∧
    get_company_overview_data_for_symbol
      (fun _ => .error "Alpha Vantage request failed") "ZZZZ" =
      { symbol := .str "ZZZZ" } ∧
    get_global_quote_data_for_symbol
      (fun _ => .error "Alpha Vantage request failed") "ZZZZ" = ⟨"ZZZZ", none⟩ ∧
    get_management_guidance_data_for_symbol
      (fun _ => .error "Alpha Vantage request failed")
      (fun _ _ => .error "Alpha Vantage request failed") 5 2025 "ZZZZ" =
      ⟨"ZZZZ", [], none, none⟩ :=
  fetch_degrade_not_fail "ZZZZ" "Alpha Vantage request failed"
    (fun _ => .error "Alpha Vantage request failed")
    (fun _ => .error "Alpha Vantage request failed")
    (fun _ => .error "Alpha Vantage request failed")
    (fun _ => .error "Alpha Vantage request failed")
    (fun _ => .ok ⟨false⟩)
    (fun _ => .error "Alpha Vantage request failed")
    (fun _ => .error "Alpha Vantage request failed")
    (fun _ => .error "Alpha Vantage request failed")
    (fun _ _ => .error "Alpha Vantage request failed") 5 2025 ⟨false⟩
    rfl rfl rfl rfl rfl rfl

/-- C9: The fetch stages apply exactly the documented truncation rules to
successful provider payloads: the historical-earnings fetch keeps the most
recent 10 quarterly earnings rows, 5 annual earnings rows and 5 annual
income-statement rows; the financial-statements fetch keeps the most recent
3 annual reports of each statement; the earnings-projections fetch keeps
4 quarterly + 4 annual reports when the fiscal-timing heuristic selects
annual data and 8 quarterly + 3 annual otherwise; and the forward-PE
earnings fetch keeps 4 trailing quarters under the same heuristic and 9
otherwise (also stripping the fixed descriptive keys from the overview). -/
theorem fetch_truncation_rules
    (symbol : String) (raw_e : RawEarnings) (ist bst cst : RawStatements)
    (fiscal_info : FiscalYearInfo) (ov est : List (String × JValue)) (price : JValue)
    (call_earnings : String → Except String RawEarnings)
    (call_income call_balance call_cash : String → Except String RawStatements)
    (log_fiscal : String → Except String FiscalYearInfo)
    (call_overview call_quote call_estimates :
      String → Except String (List (String × JValue)))
    (hE : call_earnings symbol = .ok raw_e) (hI : call_income symbol = .ok ist)
    (hB : call_balance symbol = .ok bst) (hC : call_cash symbol = .ok cst)
    (hF : log_fiscal symbol = .ok fiscal_info) (hOv : call_overview symbol = .ok ov)
    (hEst : call_estimates symbol = .ok est)
    (hQ : call_quote symbol = .ok [("Global Quote", JValue.obj [("05. price", price)])]) :
    get_historical_earnings_data_for_symbol call_earnings call_income symbol =
      ⟨symbol, raw_e.quarterlyEarnings.take 10, raw_e.annualEarnings.take 5,
       ist.annualReports.take 5⟩ ∧
    get_financial_statements_data_for_symbol call_income call_balance call_cash symbol =
      ⟨symbol, ist.annualReports.take 3, bst.annualReports.take 3,
       cst.annualReports.take 3⟩ ∧
    get_earnings_projection_data_for_symbol log_fiscal call_income call_overview symbol
      none none =
      ⟨symbol, ist.quarterlyReports.take (if fiscal_info.use_annual_data then 4 else 8),
       ist.annualReports.take (if fiscal_info.use_annual_data then 4 else 3), ov,
       none, none⟩ ∧
    get_quarterly_eps_data_for_symbol log_fiscal call_earnings call_quote call_overview
      call_estimates symbol =
      .ok ⟨symbol, clean_overview_of_useless_data ov, price,
           raw_e.quarterlyEarnings.take (if fiscal_info.use_annual_data then 4 else 9),
           extract_next_quarter_eps_from_estimates est⟩ := by
  refine ⟨?_, ?_, ?_, ?_⟩
  · simp [get_historical_earnings_data_for_symbol, hE, hI, take_truthy]
  · simp [get_financial_statements_data_for_symbol, hI, hB, hC]
  · cases hu : fiscal_info.use_annual_data <;>
      simp [get_earnings_projection_data_for_symbol, hF, hI, hOv, hu]
  · cases hu : fiscal_info.use_annual_data <;>
      simp [get_quarterly_eps_data_for_symbol, hF, hE, hQ, hOv, hEst, dict_item,
        List.lookup, take_truthy, hu]

/-- C9 witness: concrete payloads with 11 quarterly rows, 6 annual rows and
9 quarterly / 6 annual reports, under the annual-focused fiscal decision. -/
theorem fetch_truncation_rules_witness :
    get_historical_earnings_data_for_symbol (fun _ => .ok wit_raw_earnings)
      (fun _ => .ok wit_statements) "AAPL" =
      ⟨"AAPL", wit_raw_earnings.quarterlyEarnings.take 10,
       wit_raw_earnings.annualEarnings.take 5, wit_statements.annualReports.take 5⟩ ∧
    get_financial_statements_data_for_symbol (fun _ => .ok wit_statements)
      (fun _ => .ok wit_statements) (fun _ => .ok wit_statements) "AAPL" =
      ⟨"AAPL", wit_statements.annualReports.take 3, wit_statements.annualReports.take 3,
       wit_statements.annualReports.take 3⟩ ∧
    get_earnings_projection_data_for_symbol (fun _ => .ok ⟨true⟩)
      (fun _ => .ok wit_statements) (fun _ => .ok wit_overview) "AAPL" none none =
      ⟨"AAPL", wit_statements.quarterlyReports.take
         (if (⟨true⟩ : FiscalYearInfo).use_annual_data then 4 else 8),
       wit_statements.annualReports.take
         (if (⟨true⟩ : FiscalYearInfo).use_annual_data then 4 else 3),
       wit_overview, none, none⟩ ∧
    get_quarterly_eps_data_for_symbol (fun _ => .ok ⟨true⟩)
      (fun _ => .ok wit_raw_earnings)
      (fun _ => .ok [("Global Quote", JValue.obj [("05. price", JValue.str "123.45")])])
      (fun _ => .ok wit_overview) (fun _ => .ok wit_estimates) "AAPL" =
      .ok ⟨"AAPL", clean_overview_of_useless_data wit_overview, JValue.str "123.45",
           wit_raw_earnings.quarterlyEarnings.take
             (if (⟨true⟩ : FiscalYearInfo).use_annual_data then 4 else 9),
           extract_next_quarter_eps_from_estimates wit_estimates⟩ :=
  fetch_truncation_rules "AAPL" wit_raw_earnings wit_statements wit_statements
    wit_statements ⟨true⟩ wit_overview wit_estimates (JValue.str "123.45")
    (fun _ => .ok wit_raw_earnings) (fun _ => .ok wit_statements)
    (fun _ => .ok wit_statements) (fun _ => .ok wit_statements) (fun _ => .ok ⟨true⟩)
    (fun _ => .ok wit_overview)
    (fun _ => .ok [("Global Quote", JValue.obj [("05. price", JValue.str "123.45")])])
    (fun _ => .ok wit_estimates)
    rfl rfl rfl rfl rfl rfl rfl rfl

/-- C7: The management-guidance analysis never aborts the run: whenever the
transcript is absent (`earnings_transcript` is `None` or a falsy empty dict),
or its content cannot be extracted, or the LLM call itself throws, the agent
returns a valid degraded `ManagementGuidanceAnalysis` with
`transcript_available = false`, NEUTRAL overall tone, NEUTRAL consensus
validation signal, the requested symbol, and a non-empty narrative explaining
the failure; being a total function into the record type, the agent lets the
pipeline continue to subsequent stages. -/
theorem management_guidance_degrades_gracefully
    (runLLM : String → Except String ManagementGuidanceAnalysis)
    (py_repr_data : ManagementGuidanceData → String) (symbol err : String)
    (guidance_data : ManagementGuidanceData) (hctx fctx : Option String)
    (hdeg : guidance_data.earnings_transcript = none ∨
      (∃ td, guidance_data.earnings_transcript = some td ∧
        (td.isEmpty = true ∨ extract_transcript_content td = "")) ∨
      (∀ input, runLLM input = .error err)) :
    (management_guidance_agent runLLM py_repr_data symbol guidance_data hctx
        fctx).transcript_available = false ∧
    (management_guidance_agent runLLM py_repr_data symbol guidance_data hctx
        fctx).overall_guidance_tone = .NEUTRAL ∧
    (management_guidance_agent runLLM py_repr_data symbol guidance_data hctx
        fctx).consensus_validation_signal = .NEUTRAL ∧
    (management_guidance_agent runLLM py_repr_data symbol guidance_data hctx
        fctx).symbol = symbol ∧
    0 < (management_guidance_agent runLLM py_repr_data symbol guidance_data hctx
        fctx).long_form_analysis.length := by
  have key : management_guidance_agent runLLM py_repr_data symbol guidance_data hctx fctx =
      create_no_transcript_analysis symbol ∨
      ∃ m, management_guidance_agent runLLM py_repr_data symbol guidance_data hctx fctx =
        create_error_analysis symbol m := by
    rcases hdeg with h | ⟨td, htd, hcase⟩ | hllm
    · left
      simp [management_guidance_agent, h]
    · left
      rcases hcase with hemp | hext
      · simp [management_guidance_agent, htd, hemp]
      · by_cases hemp : td.isEmpty
        · simp [management_guidance_agent, htd, hemp]
        · simp [management_guidance_agent, htd, hemp, hext]
    · cases hgd : guidance_data.earnings_transcript with
      | none =>
          left
          simp [management_guidance_agent, hgd]
      | some td =>
          by_cases hemp : td.isEmpty
          · left
            simp [management_guidance_agent, hgd, hemp]
          · by_cases hext : extract_transcript_content td = ""
            · left
              simp [management_guidance_agent, hgd, hemp, hext]
            · right
              refine ⟨err, ?_⟩
              simp [management_guidance_agent, hgd, hemp, hext, hllm]
  rcases key with h | ⟨m, h⟩ <;> rw [h]
  · refine ⟨rfl, rfl, rfl, rfl, ?_⟩
    simp only [create_no_transcript_analysis]
    decide
  · refine ⟨rfl, rfl, rfl, rfl, ?_⟩
    have h0 : 0 < "Management guidance analysis encountered an error: ".length := by decide
    simp only [create_error_analysis, String.length_append]
    omega

/-- C7 witness: the spec scenario — the fetch produced no transcript; the
agent returns the degraded analysis and the run can continue. -/
theorem management_guidance_degrades_gracefully_witness :
    (management_guidance_agent (fun _ => .error "LLM unavailable")
        (fun _ => "guidance data") "AAPL" ⟨"AAPL", [], none, none⟩ none
        none).transcript_available = false ∧
    (management_guidance_agent (fun _ => .error "LLM unavailable")
        (fun _ => "guidance data") "AAPL" ⟨"AAPL", [], none, none⟩ none
        none).overall_guidance_tone = .NEUTRAL ∧
    (management_guidance_agent (fun _ => .error "LLM unavailable")
        (fun _ => "guidance data") "AAPL" ⟨"AAPL", [], none, none⟩ none
        none).consensus_validation_signal = .NEUTRAL ∧
    (management_guidance_agent (fun _ => .error "LLM unavailable")
        (fun _ => "guidance data") "AAPL" ⟨"AAPL", [], none, none⟩ none
        none).symbol = "AAPL" ∧
    0 < (management_guidance_agent (fun _ => .error "LLM unavailable")
        (fun _ => "guidance data") "AAPL" ⟨"AAPL", [], none, none⟩ none
        none).long_form_analysis.length :=
  management_guidance_degrades_gracefully (fun _ => .error "LLM unavailable")
    (fun _ => "guidance data") "AAPL" "LLM unavailable" ⟨"AAPL", [], none, none⟩
    none none (Or.inl rfl)

/-- C10 counterexample: neither the `PeerGroup` model nor the resolver
enforces the claimed invariant. The pydantic validation accepts a peer list
of length 1 containing the original symbol itself, and the resolver returns
such a schema-valid LLM output unchanged, so a produced `PeerGroup` can
violate both the 2-4 size bound and the self-exclusion. -/
theorem peer_group_invariant_cex :
    peer_group_agent (fun _ => ⟨"AAPL", ["AAPL"]⟩) "AAPL" none = ⟨"AAPL", ["AAPL"]⟩ ∧
    validate_peer_group
      [("original_symbol", JValue.str "AAPL"),
       ("peer_group", JValue.arr [JValue.str "AAPL"])] = some ⟨"AAPL", ["AAPL"]⟩ ∧
    (PeerGroup.mk "AAPL" ["AAPL"]).peer_group.length = 1 ∧
    (PeerGroup.mk "AAPL" ["AAPL"]).original_symbol ∈
      (PeerGroup.mk "AAPL" ["AAPL"]).peer_group := by
  refine ⟨rfl, rfl, rfl, ?_⟩
  simp

/-- C10 (amended): The resolver returns the LLM collaborator's structured
output without any check, and the `PeerGroup` schema only requires
`original_symbol` to be a string and `peer_group` to be a list of strings:
every such pair validates, so the 2-4 size bound and the exclusion of the
original symbol are requested in the instructions but not enforced by the
code. -/
theorem peer_group_resolver_unchecked (runLLM : String → PeerGroup) (symbol : String)
    (financial_statements_analysis : Option String) (s : String) (l : List String) :
    peer_group_agent runLLM symbol financial_statements_analysis =
      runLLM (peer_group_input symbol financial_statements_analysis) ∧
    validate_peer_group
      [("original_symbol", JValue.str s), ("peer_group", JValue.arr (l.map JValue.str))] =
      some ⟨s, l⟩ := by
  refine ⟨rfl, ?_⟩
  simp [validate_peer_group, List.lookup, jStr?, jStrList?, jStrListAux_map_str]

end Veratheon
